import Mathlib

/-!
Verification of the clinical posture analysis engine (analysis-engine.js).

The development embeds the geometry helpers, the calibration update, the
three view analyzers and the deformity summary aggregator over the reals.
JavaScript constructs are modelled as follows:

* `Math.atan2 y x` is `Complex.arg ⟨x, y⟩` (range `(-pi, pi]`, and
  `atan2 0 0 = 0`, matching the JavaScript function on real inputs).
* `v.toFixed(1)` followed by `parseFloat` is `fix1` (round to the nearest
  tenth, ties rounding up; every value the engine stores is nonnegative,
  where this agrees with the JavaScript rounding).
* IEEE special values arising from division by zero are modelled by the
  `JVal` type (`a / 0` is `Infinity`/`NaN`, `0 * Infinity` is `NaN`).
* Issue strings are modelled as tags (per the data model, issues carry no
  structured fields); deformity records keep their structured payloads.
* A landmark set is a fixed-size record of named points; an absent or
  empty set is `Option.none`.
* The engine stores measurement angle values through `toFixed(1)` and the
  aggregator re-parses them, so stored measurement fields hold `fix1` of
  the raw angle while thresholds are checked on the raw values, exactly
  as in the source.
-/

namespace Posture

open Classical

/-- A 2D landmark point (image coordinates, y grows downward). -/
structure Point where
  x : ℝ
  y : ℝ

/-- Math.atan2 y x, modelled as the argument of the complex number x + y i. -/
noncomputable def atan2 (y x : ℝ) : ℝ := Complex.arg ⟨x, y⟩

/-- Angle at vertex b formed by the rays b to a and b to c (calculateAngle). -/
noncomputable def calculateAngle (a b c : Point) : ℝ :=
  let radians := atan2 (c.y - b.y) (c.x - b.x) - atan2 (a.y - b.y) (a.x - b.x)
  let angle := |radians * 180 / Real.pi|
  if angle > 180 then 360 - angle else angle

/-- Tilt of the line p1-p2 from horizontal, folded into [0, 90]. -/
noncomputable def calculateSlopeAngle (point1 point2 : Point) : ℝ :=
  let deltaY := point2.y - point1.y
  let deltaX := point2.x - point1.x
  let rawAngle := |atan2 deltaY deltaX * 180 / Real.pi|
  if rawAngle > 90 then 180 - rawAngle else rawAngle

/-- Horizontal offset of point2 from a vertical line through point1, as an
angle from vertical; 0 when the vertical separation is zero. -/
noncomputable def calculateHorizontalDeviation (point1 point2 : Point) : ℝ :=
  let deltaX := |point2.x - point1.x|
  let deltaY := |point2.y - point1.y|
  if deltaY = 0 then 0 else atan2 deltaX deltaY * 180 / Real.pi

/-- Euclidean distance between two landmarks in pixels. -/
noncomputable def pixelDistance (p q : Point) : ℝ :=
  Real.sqrt ((q.x - p.x) ^ 2 + (q.y - p.y) ^ 2)

/-- toFixed(1) followed by parseFloat: round to the nearest tenth. -/
noncomputable def fix1 (x : ℝ) : ℝ := (round (x * 10) : ℤ) / 10

/-- A JavaScript number value: finite, positive or negative Infinity, or NaN. -/
inductive JVal where
  | num (r : ℝ)
  | inf
  | ninf
  | nan

/-- JavaScript division a / b, including division by zero. -/
noncomputable def jdiv (a b : ℝ) : JVal :=
  if b = 0 then (if a = 0 then .nan else if 0 < a then .inf else .ninf)
  else .num (a / b)

/-- Multiplication of a finite JavaScript number by a JVal; 0 * Infinity = NaN. -/
noncomputable def jmul (a : ℝ) : JVal → JVal
  | .num r => .num (a * r)
  | .inf => if a = 0 then .nan else if 0 < a then .inf else .ninf
  | .ninf => if a = 0 then .nan else if 0 < a then .ninf else .inf
  | .nan => .nan

/-- toFixed(1)/parseFloat lifted to JVal (Infinity and NaN round-trip). -/
noncomputable def jfix1 : JVal → JVal
  | .num r => .num (fix1 r)
  | v => v

/-- A body side. -/
inductive Side where
  | left
  | right
  deriving DecidableEq

/-- Frontal-plane knee direction label (the empty string, VALGUS, or VARUS). -/
inductive KneeDir where
  | unclassified
  | valgus
  | varus
  deriving DecidableEq

/-- Sagittal knee position label. -/
inductive KneePos where
  | flexion
  | hyperextension
  | neutral
  deriving DecidableEq

/-- Ankle alignment label. -/
inductive AnkleDir where
  | pronation
  | supination
  | neutral
  deriving DecidableEq

/-- Sagittal shoulder posture label (ROUNDED anterior / RETRACTED posterior). -/
inductive ShoulderPosture where
  | rounded
  | retracted
  deriving DecidableEq

/-- Curvature classification for thoracic and lumbar measurements. -/
inductive CurveType where
  | excessive
  | reduced
  | normal
  deriving DecidableEq

/-- Issue tags; one per distinct issue string the engine can push.  Issues
carry no structured fields (the deformity records are the structured
counterpart). -/
inductive Issue where
  | earPinnaeAsymmetry
  | cervicalLateralDeviation
  | shoulderAsymmetry
  | elbowAsymmetry
  | pelvicObliquity
  | kneeAlignment
  | kneeHeightAsymmetry
  | normalFrontal
  | forwardHeadPosture
  | shoulderPositionDeviation
  | thoracicKyphosisExcessive
  | thoracicKyphosisReduced
  | lumbarLordosisExcessive
  | lumbarLordosisReduced
  | leftKneePositionIssue
  | rightKneePositionIssue
  | normalSagittal
  | backElbowAsymmetry
  | scapularAsymmetry
  | psisAsymmetry
  | glutealFoldAsymmetry
  | poplitealAsymmetry
  | ankleAlignment
  | normalPosterior
  deriving DecidableEq

/-- Recommendation tags; one per distinct recommendation push site. -/
inductive Recommendation where
  | assessCervicalRotation
  | cranialTiltCorrection
  | cervicalLateralFlexionStretch
  | scmScaleneBalancing
  | upperTrapStretch (s : Side)
  | lowerTrapStrengthen (s : Side)
  | assessShoulderGirdle
  | legLengthAssessment
  | hipAbductorStrengthen (s : Side)
  | valgusHipAbductorStrengthen
  | vmoStrengthen
  | varusHipAdductorStrengthen
  | itbStretch
  | functionalLegLengthAssessment
  | deepNeckFlexorStrengthen
  | posturalAwarenessTraining
  | scapularRetraction
  | pectoralisStretch
  | thoracicExtensionMobilization
  | upperBackStrengthen
  | thoracicMobility
  | hipFlexorStretch
  | coreStrengthen
  | lumbarExtensionMobility
  | quadricepsStrengthen (s : Side)
  | hamstringStretch (s : Side)
  | hamstringStrengthen (s : Side)
  | kneeProprioception (s : Side)
  | upperExtremityBalance
  | scapularStabilization
  | elevationFocus (s : Side)
  | pelvicRotationAssessment
  | addressPelvicRotation (s : Side)
  | glutealStrengthenFocus (s : Side)
  | hamstringFlexibilityAssessment
  | anklePronationControl
  | posteriorTibialisStrengthen
  | archSupportAssessment
  | ankleSupinationCorrection
  | peronealStrengthen
  | lateralAnkleStability
  deriving DecidableEq

/-- Structured deformity records, one constructor per type tag in the source,
with the payload fields that record carries (angles and percentages are the
stored, rounded values; distances are JVal centimeter strings). -/
inductive Deformity where
  | earPinnaeAsym (elevated depressed : Side) (angle : ℝ) (distance : JVal)
  | cervicalLateral (direction : Side) (angle : ℝ) (distance : JVal)
  | shoulderLevelAsym (elevated depressed : Side) (angle : ℝ) (distance : JVal)
  | elbowLevelAsym (elevated depressed : Side) (angle : ℝ) (distance : JVal)
  | pelvicObliquity (elevated depressed : Side) (angle : ℝ) (distance : JVal)
  | leftKneeMalalignment (direction : KneeDir) (angle : ℝ)
  | rightKneeMalalignment (direction : KneeDir) (angle : ℝ)
  | kneeHeightAsym (elevated depressed : Side) (angle : ℝ) (distance : JVal)
  | forwardHeadPosture (neckAngle neckDistance chinAngle chinDistance : ℝ)
  | shoulderPositionDeviation (direction : ShoulderPosture) (angle : ℝ)
  | thoracicCurvature (direction : CurveType) (angle : ℝ)
  | lumbarCurvature (direction : CurveType) (angle : ℝ)
  | leftKneePosition (direction : KneePos) (angle : ℝ)
  | rightKneePosition (direction : KneePos) (angle : ℝ)
  | scapularHeightAsym (elevated depressed : Side) (angle : ℝ) (distance : JVal)
  | psisAsym (elevated depressed : Side) (angle : ℝ) (distance : JVal)
  | glutealFoldAsym (longer shorter : Side) (percentage : ℝ)
  | poplitealLineAsym (elevated depressed : Side) (angle : ℝ) (distance : JVal)
  | leftAnkleMalalignment (direction : AnkleDir) (angle : ℝ)
  | rightAnkleMalalignment (direction : AnkleDir) (angle : ℝ)

/-- Front-view measurement map (stored values after toFixed/parseFloat). -/
structure FrontMeasurements where
  earPinnaeLevel : ℝ
  earPinnaeLevelCm : JVal
  neckLevel : ℝ
  neckLevelCm : JVal
  shoulderLevel : ℝ
  shoulderLevelCm : JVal
  elbowLevel : ℝ
  elbowLevelCm : JVal
  pelvicObliquity : ℝ
  pelvicObliquityCm : JVal
  leftKneeAlignment : ℝ
  leftKneeDirection : KneeDir
  rightKneeAlignment : ℝ
  rightKneeDirection : KneeDir
  kneeLevel : ℝ
  kneeLevelCm : JVal

/-- Side-view measurement map. -/
structure SideMeasurements where
  forwardNeck : ℝ
  forwardNeckCm : ℝ
  chinForward : ℝ
  chinForwardCm : ℝ
  shoulderPosition : ℝ
  shoulderPostureType : ShoulderPosture
  thoracicCurvature : ℝ
  thoracicCurvatureType : CurveType
  lumbarCurvature : ℝ
  lumbarCurvatureType : CurveType
  leftKneePosition : ℝ
  leftKneePositionType : KneePos
  rightKneePosition : ℝ
  rightKneePositionType : KneePos

/-- Back-view measurement map. -/
structure BackMeasurements where
  elbowLevel : ℝ
  elbowLevelCm : JVal
  scapularLevel : ℝ
  scapularLevelCm : JVal
  psisLevel : ℝ
  psisLevelCm : JVal
  glutealFoldAsymmetry : ℝ
  poplitealLine : ℝ
  poplitealLineCm : JVal
  leftAnkleAlignment : ℝ
  leftAnkleDirection : AnkleDir
  rightAnkleAlignment : ℝ
  rightAnkleDirection : AnkleDir

/-- Front-view analyzer result; an empty input yields empty lists and an
empty (none) measurement map. -/
structure FrontResult where
  issues : List Issue
  recommendations : List Recommendation
  measurements : Option FrontMeasurements
  deformities : List Deformity

/-- Side-view analyzer result. -/
structure SideResult where
  issues : List Issue
  recommendations : List Recommendation
  measurements : Option SideMeasurements
  deformities : List Deformity

/-- Back-view analyzer result. -/
structure BackResult where
  issues : List Issue
  recommendations : List Recommendation
  measurements : Option BackMeasurements
  deformities : List Deformity

/-- A fixed-size landmark set, indexed by anatomical role (the MediaPipe
indices 0, 7, 8, 11, 12, 13, 14, 23, 24, 25, 26, 27, 28, 29, 30, 31, 32). -/
structure Landmarks where
  nose : Point
  leftEar : Point
  rightEar : Point
  leftShoulder : Point
  rightShoulder : Point
  leftElbow : Point
  rightElbow : Point
  leftHip : Point
  rightHip : Point
  leftKnee : Point
  rightKnee : Point
  leftAnkle : Point
  rightAnkle : Point
  leftHeel : Point
  rightHeel : Point
  leftFootIndex : Point
  rightFootIndex : Point

/-- The calibration profile: four anthropometric lengths in centimeters. -/
structure Calibration where
  headWidth : ℝ
  shoulderWidth : ℝ
  hipWidth : ℝ
  neckLength : ℝ

/-- The default calibration profile (15 / 40 / 35 / 20 cm). -/
def defaultCalibration : Calibration := ⟨15, 40, 35, 20⟩

/-- A user-supplied calibration field: absent, NaN (non-numeric input), or a
finite number. -/
inductive CalInput where
  | absent
  | nan
  | num (r : ℝ)

/-- JavaScript value-or-default: absent, NaN and 0 are falsy and fall back
to the default. -/
noncomputable def orDefault (v : CalInput) (d : ℝ) : ℝ :=
  match v with
  | .absent => d
  | .nan => d
  | .num r => if r = 0 then d else r

/-- setCalibration replaces all four calibration values, each falling back
to its fixed default on falsy input. -/
noncomputable def setCalibration (headWidth shoulderWidth hipWidth neckLength : CalInput) :
    Calibration :=
  { headWidth := orDefault headWidth 15
    shoulderWidth := orDefault shoulderWidth 40
    hipWidth := orDefault hipWidth 35
    neckLength := orDefault neckLength 20 }

/-- Front-view ear pixel distance. -/
noncomputable def frontEarDistancePx (lms : Landmarks) : ℝ :=
  Real.sqrt ((lms.rightEar.x - lms.leftEar.x) ^ 2 + (lms.rightEar.y - lms.leftEar.y) ^ 2)

/-- Front-view shoulder pixel distance. -/
noncomputable def frontShoulderDistancePx (lms : Landmarks) : ℝ :=
  Real.sqrt ((lms.rightShoulder.x - lms.leftShoulder.x) ^ 2 +
    (lms.rightShoulder.y - lms.leftShoulder.y) ^ 2)

/-- Front-view hip pixel distance, translated verbatim from the source,
whose second summand reads (rightHip.y - rightHip.y) and is identically
zero (the back-view version uses leftHip.y in the second factor). -/
noncomputable def frontHipDistancePx (lms : Landmarks) : ℝ :=
  Real.sqrt ((lms.rightHip.x - lms.leftHip.x) ^ 2 + (lms.rightHip.y - lms.rightHip.y) ^ 2)

/-- Front-view head region cm-per-pixel conversion. -/
noncomputable def headRatioCmPerPx (cal : Calibration) (lms : Landmarks) : JVal :=
  jdiv cal.headWidth (frontEarDistancePx lms)

/-- Front-view shoulder region cm-per-pixel conversion. -/
noncomputable def shoulderRatioCmPerPx (cal : Calibration) (lms : Landmarks) : JVal :=
  jdiv cal.shoulderWidth (frontShoulderDistancePx lms)

/-- Front-view hip region cm-per-pixel conversion. -/
noncomputable def hipRatioCmPerPx (cal : Calibration) (lms : Landmarks) : JVal :=
  jdiv cal.hipWidth (frontHipDistancePx lms)

/-- Back-view shoulder pixel distance. -/
noncomputable def backShoulderDistancePx (lms : Landmarks) : ℝ :=
  Real.sqrt ((lms.rightShoulder.x - lms.leftShoulder.x) ^ 2 +
    (lms.rightShoulder.y - lms.leftShoulder.y) ^ 2)

/-- Back-view hip pixel distance (this one uses both coordinates). -/
noncomputable def backHipDistancePx (lms : Landmarks) : ℝ :=
  Real.sqrt ((lms.rightHip.x - lms.leftHip.x) ^ 2 + (lms.rightHip.y - lms.leftHip.y) ^ 2)

/-- Back-view shoulder region cm-per-pixel conversion. -/
noncomputable def backShoulderRatioCmPerPx (cal : Calibration) (lms : Landmarks) : JVal :=
  jdiv cal.shoulderWidth (backShoulderDistancePx lms)

/-- Back-view hip region cm-per-pixel conversion. -/
noncomputable def backHipRatioCmPerPx (cal : Calibration) (lms : Landmarks) : JVal :=
  jdiv cal.hipWidth (backHipDistancePx lms)

/-- Front view analyzer.  A missing or empty landmark set yields the
all-empty result; otherwise the seven measurement blocks are computed in
source order and issues, recommendations and deformities are accumulated
in push order. -/
noncomputable def analyzeFrontView (cal : Calibration) : Option Landmarks → FrontResult
  | none => ⟨[], [], none, []⟩
  | some lms =>
    let earAngle := calculateSlopeAngle lms.leftEar lms.rightEar
    let earHeightDiffPx := |lms.leftEar.y - lms.rightEar.y|
    let earPinnaeLevelCm := jfix1 (jmul earHeightDiffPx (headRatioCmPerPx cal lms))
    let higherEar : Side := if lms.leftEar.y < lms.rightEar.y then .left else .right
    let lowerEar : Side := if lms.leftEar.y < lms.rightEar.y then .right else .left
    let shoulderMidpoint : Point :=
      ⟨(lms.leftShoulder.x + lms.rightShoulder.x) / 2,
       (lms.leftShoulder.y + lms.rightShoulder.y) / 2⟩
    let neckDeviation := calculateHorizontalDeviation shoulderMidpoint lms.nose
    let neckHorizontalDistPx := |lms.nose.x - shoulderMidpoint.x|
    let neckLevelCm := jfix1 (jmul neckHorizontalDistPx (shoulderRatioCmPerPx cal lms))
    let neckSide : Side := if lms.nose.x < shoulderMidpoint.x then .left else .right
    let shoulderAngle := calculateSlopeAngle lms.leftShoulder lms.rightShoulder
    let shoulderHeightDiffPx := |lms.leftShoulder.y - lms.rightShoulder.y|
    let shoulderLevelCm := jfix1 (jmul shoulderHeightDiffPx (shoulderRatioCmPerPx cal lms))
    let higherShoulder : Side := if lms.leftShoulder.y < lms.rightShoulder.y then .left else .right
    let lowerShoulder : Side := if lms.leftShoulder.y < lms.rightShoulder.y then .right else .left
    let elbowAngle := calculateSlopeAngle lms.leftElbow lms.rightElbow
    let elbowHeightDiffPx := |lms.leftElbow.y - lms.rightElbow.y|
    let elbowLevelCm := jfix1 (jmul elbowHeightDiffPx (shoulderRatioCmPerPx cal lms))
    let higherElbow : Side := if lms.leftElbow.y < lms.rightElbow.y then .left else .right
    let lowerElbow : Side := if lms.leftElbow.y < lms.rightElbow.y then .right else .left
    let hipAngle := calculateSlopeAngle lms.leftHip lms.rightHip
    let hipHeightDiffPx := |lms.leftHip.y - lms.rightHip.y|
    let pelvicObliquityCm := jfix1 (jmul hipHeightDiffPx (hipRatioCmPerPx cal lms))
    let higherHip : Side := if lms.leftHip.y < lms.rightHip.y then .left else .right
    let lowerHip : Side := if lms.leftHip.y < lms.rightHip.y then .right else .left
    let leftKneeAngle := calculateAngle lms.leftHip lms.leftKnee lms.leftAnkle
    let leftKneeDeviation := |180 - leftKneeAngle|
    let leftKneeDirection : KneeDir :=
      if leftKneeAngle < 180 then .valgus
      else if leftKneeAngle > 180 then .varus
      else .unclassified
    let rightKneeAngle := calculateAngle lms.rightHip lms.rightKnee lms.rightAnkle
    let rightKneeDeviation := |180 - rightKneeAngle|
    let rightKneeDirection : KneeDir :=
      if rightKneeAngle < 180 then .valgus
      else if rightKneeAngle > 180 then .varus
      else .unclassified
    let kneeAngle := calculateSlopeAngle lms.leftKnee lms.rightKnee
    let kneeHeightDiffPx := |lms.leftKnee.y - lms.rightKnee.y|
    let kneeLevelCm := jfix1 (jmul kneeHeightDiffPx (hipRatioCmPerPx cal lms))
    let higherKnee : Side := if lms.leftKnee.y < lms.rightKnee.y then .left else .right
    let lowerKnee : Side := if lms.leftKnee.y < lms.rightKnee.y then .right else .left
    let issues : List Issue :=
      (if earAngle > 3 then [.earPinnaeAsymmetry] else []) ++
      (if neckDeviation > 5 then [.cervicalLateralDeviation] else []) ++
      (if shoulderAngle > 2 then [.shoulderAsymmetry] else []) ++
      (if elbowAngle > 3 then [.elbowAsymmetry] else []) ++
      (if hipAngle > 2 then [.pelvicObliquity] else []) ++
      (if leftKneeDeviation > 8 ∨ rightKneeDeviation > 8 then [.kneeAlignment] else []) ++
      (if kneeAngle > 2 then [.kneeHeightAsymmetry] else [])
    let recommendations : List Recommendation :=
      (if earAngle > 3 then [.assessCervicalRotation, .cranialTiltCorrection] else []) ++
      (if neckDeviation > 5 then [.cervicalLateralFlexionStretch, .scmScaleneBalancing] else []) ++
      (if shoulderAngle > 2 then
        [.upperTrapStretch higherShoulder, .lowerTrapStrengthen lowerShoulder] else []) ++
      (if elbowAngle > 3 then [.assessShoulderGirdle] else []) ++
      (if hipAngle > 2 then [.legLengthAssessment, .hipAbductorStrengthen lowerHip] else []) ++
      (if leftKneeDeviation > 8 ∨ rightKneeDeviation > 8 then
        (if leftKneeDirection = .valgus ∨ rightKneeDirection = .valgus then
          [.valgusHipAbductorStrengthen, .vmoStrengthen] else []) ++
        (if leftKneeDirection = .varus ∨ rightKneeDirection = .varus then
          [.varusHipAdductorStrengthen, .itbStretch] else [])
       else []) ++
      (if kneeAngle > 2 then [.functionalLegLengthAssessment] else [])
    let deformities : List Deformity :=
      (if earAngle > 3 then
        [.earPinnaeAsym higherEar lowerEar (fix1 earAngle) earPinnaeLevelCm] else []) ++
      (if neckDeviation > 5 then
        [.cervicalLateral neckSide (fix1 neckDeviation) neckLevelCm] else []) ++
      (if shoulderAngle > 2 then
        [.shoulderLevelAsym higherShoulder lowerShoulder (fix1 shoulderAngle) shoulderLevelCm]
       else []) ++
      (if elbowAngle > 3 then
        [.elbowLevelAsym higherElbow lowerElbow (fix1 elbowAngle) elbowLevelCm] else []) ++
      (if hipAngle > 2 then
        [.pelvicObliquity higherHip lowerHip (fix1 hipAngle) pelvicObliquityCm] else []) ++
      (if leftKneeDeviation > 8 ∨ rightKneeDeviation > 8 then
        (if leftKneeDeviation > 8 then
          [.leftKneeMalalignment leftKneeDirection (fix1 leftKneeDeviation)] else []) ++
        (if rightKneeDeviation > 8 then
          [.rightKneeMalalignment rightKneeDirection (fix1 rightKneeDeviation)] else [])
       else []) ++
      (if kneeAngle > 2 then
        [.kneeHeightAsym higherKnee lowerKnee (fix1 kneeAngle) kneeLevelCm] else [])
    let measurements : FrontMeasurements :=
      { earPinnaeLevel := fix1 earAngle
        earPinnaeLevelCm := earPinnaeLevelCm
        neckLevel := fix1 neckDeviation
        neckLevelCm := neckLevelCm
        shoulderLevel := fix1 shoulderAngle
        shoulderLevelCm := shoulderLevelCm
        elbowLevel := fix1 elbowAngle
        elbowLevelCm := elbowLevelCm
        pelvicObliquity := fix1 hipAngle
        pelvicObliquityCm := pelvicObliquityCm
        leftKneeAlignment := fix1 leftKneeDeviation
        leftKneeDirection := leftKneeDirection
        rightKneeAlignment := fix1 rightKneeDeviation
        rightKneeDirection := rightKneeDirection
        kneeLevel := fix1 kneeAngle
        kneeLevelCm := kneeLevelCm }
    { issues := if issues = [] then [.normalFrontal] else issues
      recommendations := recommendations
      measurements := some measurements
      deformities := deformities }

/-- Side view analyzer.  With a full fixed-size landmark set both ears are
present, so the source fallback (leftEar or rightEar or nose) never fires
and the ear average is always used. -/
noncomputable def analyzeSideView (cal : Calibration) : Option Landmarks → SideResult
  | none => ⟨[], [], none, []⟩
  | some lms =>
    let earAvg : Point :=
      ⟨(lms.leftEar.x + lms.rightEar.x) / 2, (lms.leftEar.y + lms.rightEar.y) / 2⟩
    let shoulderAvg : Point :=
      ⟨(lms.leftShoulder.x + lms.rightShoulder.x) / 2,
       (lms.leftShoulder.y + lms.rightShoulder.y) / 2⟩
    let hipAvg : Point :=
      ⟨(lms.leftHip.x + lms.rightHip.x) / 2, (lms.leftHip.y + lms.rightHip.y) / 2⟩
    let neckForwardAngle := calculateHorizontalDeviation shoulderAvg earAvg
    let neckVerticalDistPx := |earAvg.y - shoulderAvg.y|
    let neckHorizontalDistPx := |earAvg.x - shoulderAvg.x|
    let neckRatioCm : ℝ :=
      if 0 < neckVerticalDistPx then cal.neckLength / neckVerticalDistPx else 0.3
    let forwardNeckCm := fix1 (neckHorizontalDistPx * neckRatioCm)
    let chinForwardAngle := calculateHorizontalDeviation shoulderAvg lms.nose
    let chinVerticalDistPx := |lms.nose.y - shoulderAvg.y|
    let chinHorizontalDistPx := |lms.nose.x - shoulderAvg.x|
    let chinRatioCm : ℝ :=
      if 0 < chinVerticalDistPx then cal.neckLength / chinVerticalDistPx else 0.3
    let chinForwardCm := fix1 (chinHorizontalDistPx * chinRatioCm)
    let shoulderToHipAngle := calculateAngle earAvg shoulderAvg hipAvg
    let shoulderDeviation := |180 - shoulderToHipAngle|
    let shoulderPosture : ShoulderPosture :=
      if shoulderToHipAngle < 180 then .rounded else .retracted
    let thoracicAngle := calculateAngle earAvg shoulderAvg hipAvg
    let kyphosisAngle := if thoracicAngle < 180 then 180 - thoracicAngle else 0
    let lumbarAngle := calculateAngle shoulderAvg hipAvg
      ⟨(lms.leftKnee.x + lms.rightKnee.x) / 2, (lms.leftKnee.y + lms.rightKnee.y) / 2⟩
    let lordosisAngle := if lumbarAngle > 180 then lumbarAngle - 180 else 0
    let leftKneeAngle := calculateAngle lms.leftHip lms.leftKnee lms.leftAnkle
    let leftKneeDeviation := |180 - leftKneeAngle|
    let leftKneePos : KneePos :=
      if leftKneeAngle < 180 then .flexion
      else if leftKneeAngle > 180 then .hyperextension
      else .neutral
    let rightKneeAngle := calculateAngle lms.rightHip lms.rightKnee lms.rightAnkle
    let rightKneeDeviation := |180 - rightKneeAngle|
    let rightKneePos : KneePos :=
      if rightKneeAngle < 180 then .flexion
      else if rightKneeAngle > 180 then .hyperextension
      else .neutral
    let issues : List Issue :=
      (if neckForwardAngle > 15 ∨ chinForwardAngle > 12 then [.forwardHeadPosture] else []) ++
      (if shoulderDeviation > 10 then [.shoulderPositionDeviation] else []) ++
      (if kyphosisAngle > 40 then [.thoracicKyphosisExcessive]
       else if kyphosisAngle < 20 then [.thoracicKyphosisReduced] else []) ++
      (if lordosisAngle > 60 then [.lumbarLordosisExcessive]
       else if lordosisAngle < 40 then [.lumbarLordosisReduced] else []) ++
      (if leftKneeDeviation > 5 then [.leftKneePositionIssue] else []) ++
      (if rightKneeDeviation > 5 then [.rightKneePositionIssue] else [])
    let recommendations : List Recommendation :=
      (if neckForwardAngle > 15 ∨ chinForwardAngle > 12 then
        [.deepNeckFlexorStrengthen, .posturalAwarenessTraining] else []) ++
      (if shoulderDeviation > 10 then
        (if shoulderPosture = .rounded then [.scapularRetraction, .pectoralisStretch] else [])
       else []) ++
      (if kyphosisAngle > 40 then [.thoracicExtensionMobilization, .upperBackStrengthen]
       else if kyphosisAngle < 20 then [.thoracicMobility] else []) ++
      (if lordosisAngle > 60 then [.hipFlexorStretch, .coreStrengthen]
       else if lordosisAngle < 40 then [.lumbarExtensionMobility] else []) ++
      (if leftKneeDeviation > 5 then
        (if leftKneePos = .flexion then [.quadricepsStrengthen .left, .hamstringStretch .left]
         else if leftKneePos = .hyperextension then
          [.hamstringStrengthen .left, .kneeProprioception .left]
         else []) else []) ++
      (if rightKneeDeviation > 5 then
        (if rightKneePos = .flexion then [.quadricepsStrengthen .right, .hamstringStretch .right]
         else if rightKneePos = .hyperextension then
          [.hamstringStrengthen .right, .kneeProprioception .right]
         else []) else [])
    let deformities : List Deformity :=
      (if neckForwardAngle > 15 ∨ chinForwardAngle > 12 then
        [.forwardHeadPosture (fix1 neckForwardAngle) forwardNeckCm
          (fix1 chinForwardAngle) chinForwardCm] else []) ++
      (if shoulderDeviation > 10 then
        [.shoulderPositionDeviation shoulderPosture (fix1 shoulderDeviation)] else []) ++
      (if kyphosisAngle > 40 then [.thoracicCurvature .excessive (fix1 kyphosisAngle)]
       else if kyphosisAngle < 20 then [.thoracicCurvature .reduced (fix1 kyphosisAngle)]
       else []) ++
      (if lordosisAngle > 60 then [.lumbarCurvature .excessive (fix1 lordosisAngle)]
       else if lordosisAngle < 40 then [.lumbarCurvature .reduced (fix1 lordosisAngle)]
       else []) ++
      (if leftKneeDeviation > 5 then
        [.leftKneePosition leftKneePos (fix1 leftKneeDeviation)] else []) ++
      (if rightKneeDeviation > 5 then
        [.rightKneePosition rightKneePos (fix1 rightKneeDeviation)] else [])
    let measurements : SideMeasurements :=
      { forwardNeck := fix1 neckForwardAngle
        forwardNeckCm := forwardNeckCm
        chinForward := fix1 chinForwardAngle
        chinForwardCm := chinForwardCm
        shoulderPosition := fix1 shoulderDeviation
        shoulderPostureType := shoulderPosture
        thoracicCurvature := fix1 kyphosisAngle
        thoracicCurvatureType :=
          if kyphosisAngle > 40 then .excessive
          else if kyphosisAngle < 20 then .reduced else .normal
        lumbarCurvature := fix1 lordosisAngle
        lumbarCurvatureType :=
          if lordosisAngle > 60 then .excessive
          else if lordosisAngle < 40 then .reduced else .normal
        leftKneePosition := fix1 leftKneeDeviation
        leftKneePositionType := leftKneePos
        rightKneePosition := fix1 rightKneeDeviation
        rightKneePositionType := rightKneePos }
    { issues := if issues = [] then [.normalSagittal] else issues
      recommendations := recommendations
      measurements := some measurements
      deformities := deformities }

/-- Back view analyzer.  With a full fixed-size landmark set the ankle,
heel and foot-index landmarks are always present, so the two ankle blocks
always run and the stored alignment values are always defined; the final
issue check re-parses the stored (rounded) alignment values. -/
noncomputable def analyzeBackView (cal : Calibration) : Option Landmarks → BackResult
  | none => ⟨[], [], none, []⟩
  | some lms =>
    let elbowAngle := calculateSlopeAngle lms.leftElbow lms.rightElbow
    let elbowHeightDiffPx := |lms.leftElbow.y - lms.rightElbow.y|
    let elbowLevelCm := jfix1 (jmul elbowHeightDiffPx (backShoulderRatioCmPerPx cal lms))
    let higherElbow : Side := if lms.leftElbow.y < lms.rightElbow.y then .left else .right
    let lowerElbow : Side := if lms.leftElbow.y < lms.rightElbow.y then .right else .left
    let scapularAngle := calculateSlopeAngle lms.leftShoulder lms.rightShoulder
    let scapularHeightDiffPx := |lms.leftShoulder.y - lms.rightShoulder.y|
    let scapularLevelCm := jfix1 (jmul scapularHeightDiffPx (backShoulderRatioCmPerPx cal lms))
    let higherScapula : Side := if lms.leftShoulder.y < lms.rightShoulder.y then .left else .right
    let lowerScapula : Side := if lms.leftShoulder.y < lms.rightShoulder.y then .right else .left
    let psisAngle := calculateSlopeAngle lms.leftHip lms.rightHip
    let psisHeightDiffPx := |lms.leftHip.y - lms.rightHip.y|
    let psisLevelCm := jfix1 (jmul psisHeightDiffPx (backHipRatioCmPerPx cal lms))
    let higherPSIS : Side := if lms.leftHip.y < lms.rightHip.y then .left else .right
    let lowerPSIS : Side := if lms.leftHip.y < lms.rightHip.y then .right else .left
    let leftGlutealLength := pixelDistance lms.leftHip lms.leftKnee
    let rightGlutealLength := pixelDistance lms.rightHip lms.rightKnee
    let glutealAsymmetry :=
      |leftGlutealLength - rightGlutealLength| /
        ((leftGlutealLength + rightGlutealLength) / 2) * 100
    let longerSide : Side :=
      if leftGlutealLength > rightGlutealLength then .left else .right
    let shorterSide : Side :=
      if leftGlutealLength > rightGlutealLength then .right else .left
    let poplitealAngle := calculateSlopeAngle lms.leftKnee lms.rightKnee
    let poplitealHeightDiffPx := |lms.leftKnee.y - lms.rightKnee.y|
    let poplitealLineCm := jfix1 (jmul poplitealHeightDiffPx (backHipRatioCmPerPx cal lms))
    let higherKnee : Side := if lms.leftKnee.y < lms.rightKnee.y then .left else .right
    let lowerKnee : Side := if lms.leftKnee.y < lms.rightKnee.y then .right else .left
    let leftAnkleAngle := calculateAngle lms.leftKnee lms.leftAnkle lms.leftHeel
    let leftAnkleDeviation := |180 - leftAnkleAngle|
    let leftAnkleDirection : AnkleDir :=
      if leftAnkleAngle < 180 then .pronation
      else if leftAnkleAngle > 180 then .supination
      else .neutral
    let rightAnkleAngle := calculateAngle lms.rightKnee lms.rightAnkle lms.rightHeel
    let rightAnkleDeviation := |180 - rightAnkleAngle|
    let rightAnkleDirection : AnkleDir :=
      if rightAnkleAngle < 180 then .pronation
      else if rightAnkleAngle > 180 then .supination
      else .neutral
    let leftAnkleDev := fix1 leftAnkleDeviation
    let rightAnkleDev := fix1 rightAnkleDeviation
    let issues : List Issue :=
      (if elbowAngle > 3 then [.backElbowAsymmetry] else []) ++
      (if scapularAngle > 2 then [.scapularAsymmetry] else []) ++
      (if psisAngle > 2 then [.psisAsymmetry] else []) ++
      (if glutealAsymmetry > 3 then [.glutealFoldAsymmetry] else []) ++
      (if poplitealAngle > 2 then [.poplitealAsymmetry] else []) ++
      (if leftAnkleDev > 5 ∨ rightAnkleDev > 5 then [.ankleAlignment] else [])
    let recommendations : List Recommendation :=
      (if elbowAngle > 3 then [.upperExtremityBalance] else []) ++
      (if scapularAngle > 2 then [.scapularStabilization, .elevationFocus lowerScapula]
       else []) ++
      (if psisAngle > 2 then [.pelvicRotationAssessment, .addressPelvicRotation higherPSIS]
       else []) ++
      (if glutealAsymmetry > 3 then [.glutealStrengthenFocus shorterSide] else []) ++
      (if poplitealAngle > 2 then [.hamstringFlexibilityAssessment] else []) ++
      (if leftAnkleDev > 5 ∨ rightAnkleDev > 5 then
        (if leftAnkleDirection = .pronation ∨ rightAnkleDirection = .pronation then
          [.anklePronationControl, .posteriorTibialisStrengthen, .archSupportAssessment]
         else []) ++
        (if leftAnkleDirection = .supination ∨ rightAnkleDirection = .supination then
          [.ankleSupinationCorrection, .peronealStrengthen, .lateralAnkleStability]
         else [])
       else [])
    let deformities : List Deformity :=
      (if elbowAngle > 3 then
        [.elbowLevelAsym higherElbow lowerElbow (fix1 elbowAngle) elbowLevelCm] else []) ++
      (if scapularAngle > 2 then
        [.scapularHeightAsym higherScapula lowerScapula (fix1 scapularAngle) scapularLevelCm]
       else []) ++
      (if psisAngle > 2 then
        [.psisAsym higherPSIS lowerPSIS (fix1 psisAngle) psisLevelCm] else []) ++
      (if glutealAsymmetry > 3 then
        [.glutealFoldAsym longerSide shorterSide (fix1 glutealAsymmetry)] else []) ++
      (if poplitealAngle > 2 then
        [.poplitealLineAsym higherKnee lowerKnee (fix1 poplitealAngle) poplitealLineCm]
       else []) ++
      (if leftAnkleDeviation > 5 then
        [.leftAnkleMalalignment leftAnkleDirection (fix1 leftAnkleDeviation)] else []) ++
      (if rightAnkleDeviation > 5 then
        [.rightAnkleMalalignment rightAnkleDirection (fix1 rightAnkleDeviation)] else [])
    let measurements : BackMeasurements :=
      { elbowLevel := fix1 elbowAngle
        elbowLevelCm := elbowLevelCm
        scapularLevel := fix1 scapularAngle
        scapularLevelCm := scapularLevelCm
        psisLevel := fix1 psisAngle
        psisLevelCm := psisLevelCm
        glutealFoldAsymmetry := fix1 glutealAsymmetry
        poplitealLine := fix1 poplitealAngle
        poplitealLineCm := poplitealLineCm
        leftAnkleAlignment := fix1 leftAnkleDeviation
        leftAnkleDirection := leftAnkleDirection
        rightAnkleAlignment := fix1 rightAnkleDeviation
        rightAnkleDirection := rightAnkleDirection }
    { issues := if issues = [] then [.normalPosterior] else issues
      recommendations := recommendations
      measurements := some measurements
      deformities := deformities }

/-- Kind tag of a bilateral comparison record. -/
inductive BilatKind where
  | forwardNeckAsym
  | thoracicAsym
  | lumbarAsym
  | leftKneeVariation
  | rightKneeVariation
  deriving DecidableEq

/-- A bilateral comparison record.  For the two knee kinds, moreSevere
names the more severe view (LEFT VIEW / RIGHT VIEW in the source). -/
structure BilatRecord where
  kind : BilatKind
  moreSevere : Side
  leftValue : ℝ
  rightValue : ℝ
  difference : ℝ

/-- One bilateral comparison block: emits a record when the absolute
left/right difference exceeds the tolerance, naming the side with the
larger value. -/
noncomputable def bilatRecord (k : BilatKind) (tol lv rv : ℝ) : List BilatRecord :=
  if |lv - rv| > tol then
    [{ kind := k
       moreSevere := if lv > rv then Side.left else Side.right
       leftValue := lv
       rightValue := rv
       difference := fix1 |lv - rv| }]
  else []

/-- All five bilateral comparison blocks, in source order (the engine
compares the stored, parseFloat-recovered measurement values). -/
noncomputable def bilatRecords (lm rm : SideMeasurements) : List BilatRecord :=
  bilatRecord .forwardNeckAsym 3 lm.forwardNeck rm.forwardNeck ++
  bilatRecord .thoracicAsym 5 lm.thoracicCurvature rm.thoracicCurvature ++
  bilatRecord .lumbarAsym 5 lm.lumbarCurvature rm.lumbarCurvature ++
  bilatRecord .leftKneeVariation 3 lm.leftKneePosition rm.leftKneePosition ++
  bilatRecord .rightKneeVariation 3 lm.rightKneePosition rm.rightKneePosition

/-- The knee sub-summary extracted from the front measurements. -/
structure KneeFrontInfo where
  leftAngle : ℝ
  leftDirection : KneeDir
  rightAngle : ℝ
  rightDirection : KneeDir

/-- The knee sub-summary extracted from one side view measurement map. -/
structure KneeSideInfo where
  angle : ℝ
  direction : KneePos
  rightAngle : ℝ
  rightDirection : KneePos

/-- The structured deformity summary. -/
structure DeformitySummary where
  frontalPlane : List Deformity
  sagittalPlane : List (Side × Deformity)
  bilateralComparison : List BilatRecord
  kneeFront : Option KneeFrontInfo
  kneeSideLeft : Option KneeSideInfo
  kneeSideRight : Option KneeSideInfo

/-- A complete posture analysis: one optional result per view. -/
structure Analysis where
  front : Option FrontResult
  sideLeft : Option SideResult
  sideRight : Option SideResult
  back : Option BackResult

/-- Deformity aggregation.  The source assigns summary.frontalPlane the
front deformities ARRAY itself (aliasing) and then pushes the back-view
deformities onto that same array, so the call also mutates the front
result it was given whenever front and back are both present.  The second
component of the returned pair is the post-call analysis state, with the
front deformities list as the shared array leaves it. -/
noncomputable def generateDeformitySummary (a : Analysis) : DeformitySummary × Analysis :=
  let frontDefs : List Deformity :=
    match a.front with
    | some f => f.deformities
    | none => []
  let backDefs : List Deformity :=
    match a.back with
    | some b => b.deformities
    | none => []
  let frontalPlane := frontDefs ++ backDefs
  let kneeFront : Option KneeFrontInfo :=
    match a.front with
    | some f =>
      match f.measurements with
      | some m =>
        some ⟨m.leftKneeAlignment, m.leftKneeDirection, m.rightKneeAlignment, m.rightKneeDirection⟩
      | none => none
    | none => none
  let sagittalPlane : List (Side × Deformity) :=
    (match a.sideLeft with
     | some l => l.deformities.map (fun d => (Side.left, d))
     | none => []) ++
    (match a.sideRight with
     | some r => r.deformities.map (fun d => (Side.right, d))
     | none => [])
  let kneeSideLeft : Option KneeSideInfo :=
    match a.sideLeft with
    | some l =>
      match l.measurements with
      | some m =>
        some ⟨m.leftKneePosition, m.leftKneePositionType, m.rightKneePosition,
          m.rightKneePositionType⟩
      | none => none
    | none => none
  let kneeSideRight : Option KneeSideInfo :=
    match a.sideRight with
    | some r =>
      match r.measurements with
      | some m =>
        some ⟨m.leftKneePosition, m.leftKneePositionType, m.rightKneePosition,
          m.rightKneePositionType⟩
      | none => none
    | none => none
  let bilateralComparison : List BilatRecord :=
    match a.sideLeft, a.sideRight with
    | some l, some r =>
      match l.measurements, r.measurements with
      | some lm, some rm => bilatRecords lm rm
      | _, _ => []
    | _, _ => []
  let summary : DeformitySummary :=
    { frontalPlane := frontalPlane
      sagittalPlane := sagittalPlane
      bilateralComparison := bilateralComparison
      kneeFront := kneeFront
      kneeSideLeft := kneeSideLeft
      kneeSideRight := kneeSideRight }
  let post : Analysis :=
    match a.front, a.back with
    | some f, some _ => { a with front := some { f with deformities := frontalPlane } }
    | _, _ => a
  (summary, post)

/-- A symmetric, perfectly upright landmark set: all paired landmarks are
level, the nose is directly above the shoulder midpoint, the midlines of
ears, shoulders, hips and knees are vertically aligned, and hip-knee-ankle
and knee-ankle-heel are colinear and vertical. -/
noncomputable def canonicalLandmarks : Landmarks where
  nose := ⟨0.5, 0.1⟩
  leftEar := ⟨0.45, 0.12⟩
  rightEar := ⟨0.55, 0.12⟩
  leftShoulder := ⟨0.3, 0.3⟩
  rightShoulder := ⟨0.7, 0.3⟩
  leftElbow := ⟨0.25, 0.45⟩
  rightElbow := ⟨0.75, 0.45⟩
  leftHip := ⟨0.4, 0.5⟩
  rightHip := ⟨0.6, 0.5⟩
  leftKnee := ⟨0.4, 0.7⟩
  rightKnee := ⟨0.6, 0.7⟩
  leftAnkle := ⟨0.4, 0.9⟩
  rightAnkle := ⟨0.6, 0.9⟩
  leftHeel := ⟨0.4, 0.95⟩
  rightHeel := ⟨0.6, 0.95⟩
  leftFootIndex := ⟨0.38, 0.97⟩
  rightFootIndex := ⟨0.62, 0.97⟩

/-- The analysis of the canonical landmark set through all four views
(front, both side views, back), as analyzePosture builds it. -/
noncomputable def canonicalAnalysis : Analysis :=
  ⟨some (analyzeFrontView defaultCalibration (some canonicalLandmarks)),
   some (analyzeSideView defaultCalibration (some canonicalLandmarks)),
   some (analyzeSideView defaultCalibration (some canonicalLandmarks)),
   some (analyzeBackView defaultCalibration (some canonicalLandmarks))⟩

/-- The canonical set with the left ankle displaced laterally (outward for
the left leg), bending the left knee so that the reflex hip-knee-ankle
angle on the medial side is 270 degrees, i.e. a 90 degree deviation on the
greater-than-180 (outward) side. -/
noncomputable def outwardKneeLandmarks : Landmarks :=
  { canonicalLandmarks with leftAnkle := ⟨0.2, 0.7⟩ }

/-- The canonical set with both ears at the same point (zero ear pixel
distance) at equal height. -/
noncomputable def coincidentEarLandmarks : Landmarks :=
  { canonicalLandmarks with leftEar := ⟨0.5, 0.12⟩, rightEar := ⟨0.5, 0.12⟩ }

/-- The canonical set with hips at (0,0) and (3,4), whose Euclidean
distance is 5 while the horizontal distance is 3. -/
noncomputable def slantedHipLandmarks : Landmarks :=
  { canonicalLandmarks with leftHip := ⟨0, 0⟩, rightHip := ⟨3, 4⟩ }

/-- Side measurements with forwardNeck 10 and everything else in range. -/
noncomputable def sideMeasNeck10 : SideMeasurements :=
  ⟨10, 0, 0, 0, 0, .retracted, 25, .normal, 50, .normal, 0, .neutral, 0, .neutral⟩

/-- Side measurements identical to sideMeasNeck10 but with forwardNeck 16. -/
noncomputable def sideMeasNeck16 : SideMeasurements :=
  { sideMeasNeck10 with forwardNeck := 16 }

/-- A front result holding exactly one deformity. -/
noncomputable def oneDeformityFront : FrontResult :=
  ⟨[.pelvicObliquity], [], none, [.pelvicObliquity .left .right 3 (.num 2)]⟩

/-- A back result holding exactly one deformity. -/
noncomputable def oneDeformityBack : BackResult :=
  ⟨[.scapularAsymmetry], [], none, [.scapularHeightAsym .left .right 3 (.num 2)]⟩

/-- An analysis with one front deformity and one back deformity. -/
noncomputable def mutationProbeAnalysis : Analysis :=
  ⟨some oneDeformityFront, none, none, some oneDeformityBack⟩

end Posture

namespace Posture

theorem atan2_zero_zero : atan2 0 0 = 0 := by
  have h : (⟨(0 : ℝ), (0 : ℝ)⟩ : ℂ) = 0 := by
    apply Complex.ext <;> simp
  rw [atan2, h, Complex.arg_zero]

theorem atan2_zero_of_pos {x : ℝ} (hx : 0 < x) : atan2 0 x = 0 := by
  rw [atan2, show (⟨x, (0 : ℝ)⟩ : ℂ) = (x : ℂ) from (Complex.ofReal_def x).symm]
  exact Complex.arg_ofReal_of_nonneg hx.le

theorem atan2_zero_of_neg {x : ℝ} (hx : x < 0) : atan2 0 x = Real.pi := by
  rw [atan2, show (⟨x, (0 : ℝ)⟩ : ℂ) = (x : ℂ) from (Complex.ofReal_def x).symm]
  exact Complex.arg_ofReal_of_neg hx

theorem atan2_pos_zero {y : ℝ} (hy : 0 < y) : atan2 y 0 = Real.pi / 2 := by
  rw [atan2, Complex.arg_eq_pi_div_two_iff]
  exact ⟨rfl, hy⟩

theorem atan2_neg_zero {y : ℝ} (hy : y < 0) : atan2 y 0 = -(Real.pi / 2) := by
  rw [atan2, Complex.arg_eq_neg_pi_div_two_iff]
  exact ⟨rfl, hy⟩

theorem atan2_le_pi (y x : ℝ) : atan2 y x ≤ Real.pi := Complex.arg_le_pi _

theorem neg_pi_lt_atan2 (y x : ℝ) : -Real.pi < atan2 y x := Complex.neg_pi_lt_arg _

theorem abs_atan2_le_pi (y x : ℝ) : |atan2 y x| ≤ Real.pi :=
  abs_le.mpr ⟨(neg_pi_lt_atan2 y x).le, atan2_le_pi y x⟩

theorem abs_mul_deg (a : ℝ) : |a * 180 / Real.pi| = |a| * 180 / Real.pi := by
  rw [abs_div, abs_mul, abs_of_pos Real.pi_pos]
  norm_num

theorem abs_atan2_neg_neg (y x : ℝ) (h : ¬(x = 0 ∧ y = 0)) :
    |atan2 (-y) (-x)| = Real.pi - |atan2 y x| := by
  have hneg : (⟨-x, -y⟩ : ℂ) = -(⟨x, y⟩ : ℂ) := by
    apply Complex.ext <;> simp
  rw [show atan2 (-y) (-x) = Complex.arg (-(⟨x, y⟩ : ℂ)) from by rw [atan2, hneg], atan2]
  rcases lt_trichotomy y 0 with hy | hy | hy
  · rw [Complex.arg_neg_eq_arg_add_pi_of_im_neg hy]
    have h1 : Complex.arg ⟨x, y⟩ < 0 := Complex.arg_neg_iff.mpr hy
    have h2 : -Real.pi < Complex.arg ⟨x, y⟩ := Complex.neg_pi_lt_arg _
    rw [abs_of_pos (by linarith), abs_of_neg h1]
    ring
  · subst hy
    have hx : x ≠ 0 := fun hx0 => h ⟨hx0, rfl⟩
    rcases hx.lt_or_lt with hx | hx
    · rw [show (-(⟨x, (0 : ℝ)⟩ : ℂ)) = ((-x : ℝ) : ℂ) from by
        rw [Complex.ofReal_def]; apply Complex.ext <;> simp]
      rw [Complex.arg_ofReal_of_nonneg (by linarith)]
      rw [show (⟨x, (0 : ℝ)⟩ : ℂ) = ((x : ℝ) : ℂ) from (Complex.ofReal_def x).symm]
      rw [Complex.arg_ofReal_of_neg hx]
      simp [abs_of_pos Real.pi_pos]
    · rw [show (-(⟨x, (0 : ℝ)⟩ : ℂ)) = ((-x : ℝ) : ℂ) from by
        rw [Complex.ofReal_def]; apply Complex.ext <;> simp]
      rw [Complex.arg_ofReal_of_neg (by linarith)]
      rw [show (⟨x, (0 : ℝ)⟩ : ℂ) = ((x : ℝ) : ℂ) from (Complex.ofReal_def x).symm]
      rw [Complex.arg_ofReal_of_nonneg hx.le]
      simp [abs_of_pos Real.pi_pos]
  · rw [Complex.arg_neg_eq_arg_sub_pi_of_im_pos hy]
    have h1 : 0 ≤ Complex.arg ⟨x, y⟩ := Complex.arg_nonneg_iff.mpr hy.le
    have h2 : Complex.arg ⟨x, y⟩ ≤ Real.pi := Complex.arg_le_pi _
    rw [abs_of_nonpos (by linarith), abs_of_nonneg h1]
    ring

theorem calculateSlopeAngle_swap (p q : Point) :
    calculateSlopeAngle p q = calculateSlopeAngle q p := by
  simp only [calculateSlopeAngle]
  by_cases h : q.x - p.x = 0 ∧ q.y - p.y = 0
  · rw [h.1, h.2, show p.x - q.x = 0 by linarith [h.1], show p.y - q.y = 0 by linarith [h.2]]
  · have key : |atan2 (p.y - q.y) (p.x - q.x)| = Real.pi - |atan2 (q.y - p.y) (q.x - p.x)| := by
      have h2 := abs_atan2_neg_neg (q.y - p.y) (q.x - p.x) h
      rw [show -(q.y - p.y) = p.y - q.y by ring, show -(q.x - p.x) = p.x - q.x by ring] at h2
      exact h2
    rw [abs_mul_deg, abs_mul_deg, key]
    have hr0 : 0 ≤ |atan2 (q.y - p.y) (q.x - p.x)| := abs_nonneg _
    have hrpi : |atan2 (q.y - p.y) (q.x - p.x)| ≤ Real.pi := abs_atan2_le_pi _ _
    have hflip : (Real.pi - |atan2 (q.y - p.y) (q.x - p.x)|) * 180 / Real.pi =
        180 - |atan2 (q.y - p.y) (q.x - p.x)| * 180 / Real.pi := by
      field_simp
      ring
    rw [hflip]
    have hs0 : 0 ≤ |atan2 (q.y - p.y) (q.x - p.x)| * 180 / Real.pi := by positivity
    have hs180 : |atan2 (q.y - p.y) (q.x - p.x)| * 180 / Real.pi ≤ 180 := by
      rw [div_le_iff Real.pi_pos]
      nlinarith [Real.pi_pos]
    split_ifs <;> linarith

theorem calculateSlopeAngle_nonneg (p q : Point) : 0 ≤ calculateSlopeAngle p q := by
  simp only [calculateSlopeAngle]
  rw [abs_mul_deg]
  have hs180 : |atan2 (q.y - p.y) (q.x - p.x)| * 180 / Real.pi ≤ 180 := by
    rw [div_le_iff Real.pi_pos]
    nlinarith [Real.pi_pos, abs_atan2_le_pi (q.y - p.y) (q.x - p.x)]
  have hs0 : 0 ≤ |atan2 (q.y - p.y) (q.x - p.x)| * 180 / Real.pi := by positivity
  split_ifs <;> linarith

theorem calculateSlopeAngle_le_90 (p q : Point) : calculateSlopeAngle p q ≤ 90 := by
  simp only [calculateSlopeAngle]
  rw [abs_mul_deg]
  have hs180 : |atan2 (q.y - p.y) (q.x - p.x)| * 180 / Real.pi ≤ 180 := by
    rw [div_le_iff Real.pi_pos]
    nlinarith [Real.pi_pos, abs_atan2_le_pi (q.y - p.y) (q.x - p.x)]
  split_ifs with hgt
  · linarith
  · linarith [not_lt.mp hgt]

theorem calculateHorizontalDeviation_nonneg (p q : Point) :
    0 ≤ calculateHorizontalDeviation p q := by
  simp only [calculateHorizontalDeviation]
  split_ifs
  · exact le_refl 0
  · have harg : 0 ≤ atan2 |q.x - p.x| |q.y - p.y| :=
      Complex.arg_nonneg_iff.mpr (by simp [abs_nonneg])
    positivity

theorem calculateHorizontalDeviation_le_180 (p q : Point) :
    calculateHorizontalDeviation p q ≤ 180 := by
  simp only [calculateHorizontalDeviation]
  split_ifs
  · norm_num
  · have harg : atan2 |q.x - p.x| |q.y - p.y| ≤ Real.pi := atan2_le_pi _ _
    have harg0 : 0 ≤ atan2 |q.x - p.x| |q.y - p.y| :=
      Complex.arg_nonneg_iff.mpr (by simp [abs_nonneg])
    rw [div_le_iff Real.pi_pos]
    nlinarith [Real.pi_pos, Real.pi_le_four]

theorem calculateAngle_nonneg (a b c : Point) : 0 ≤ calculateAngle a b c := by
  simp only [calculateAngle]
  rw [abs_mul_deg]
  have hd : |atan2 (c.y - b.y) (c.x - b.x) - atan2 (a.y - b.y) (a.x - b.x)| < 2 * Real.pi := by
    rw [abs_lt]
    constructor
    · linarith [neg_pi_lt_atan2 (c.y - b.y) (c.x - b.x), atan2_le_pi (a.y - b.y) (a.x - b.x)]
    · linarith [atan2_le_pi (c.y - b.y) (c.x - b.x), neg_pi_lt_atan2 (a.y - b.y) (a.x - b.x)]
  have h360 : |atan2 (c.y - b.y) (c.x - b.x) - atan2 (a.y - b.y) (a.x - b.x)| * 180 / Real.pi
      < 360 := by
    rw [div_lt_iff Real.pi_pos]
    nlinarith [Real.pi_pos]
  have h0 : 0 ≤ |atan2 (c.y - b.y) (c.x - b.x) - atan2 (a.y - b.y) (a.x - b.x)| * 180 / Real.pi :=
    by positivity
  split_ifs <;> linarith

theorem calculateAngle_le_180 (a b c : Point) : calculateAngle a b c ≤ 180 := by
  simp only [calculateAngle]
  split_ifs with h
  · linarith
  · linarith [not_lt.mp h]

theorem calculateSlopeAngle_of_level (p q : Point) (h : p.y = q.y) :
    calculateSlopeAngle p q = 0 := by
  simp only [calculateSlopeAngle]
  rw [show q.y - p.y = 0 by rw [h]; ring]
  rcases lt_trichotomy (q.x - p.x) 0 with hx | hx | hx
  · rw [atan2_zero_of_neg hx, show Real.pi * 180 / Real.pi = 180 from by
      field_simp]
    norm_num
  · rw [hx, atan2_zero_zero]
    norm_num
  · rw [atan2_zero_of_pos hx]
    norm_num

theorem calculateHorizontalDeviation_of_aligned (p q : Point) (h : p.x = q.x) :
    calculateHorizontalDeviation p q = 0 := by
  simp only [calculateHorizontalDeviation]
  rw [show q.x - p.x = 0 by rw [h]; ring]
  split_ifs with hy
  · rfl
  · rw [abs_zero, atan2_zero_of_pos ((abs_nonneg _).lt_of_ne (Ne.symm hy))]
    norm_num

theorem calculateAngle_vertical (a b c : Point) (hax : a.x = b.x) (hcx : c.x = b.x)
    (hay : a.y < b.y) (hcy : b.y < c.y) : calculateAngle a b c = 180 := by
  simp only [calculateAngle]
  rw [show c.x - b.x = 0 by rw [hcx]; ring, show a.x - b.x = 0 by rw [hax]; ring]
  rw [atan2_pos_zero (by linarith), atan2_neg_zero (by linarith)]
  rw [show Real.pi / 2 - -(Real.pi / 2) = Real.pi by ring]
  rw [show Real.pi * 180 / Real.pi = 180 from by field_simp]
  norm_num

theorem calculateAngle_bentOutward (a b c : Point) (hax : a.x = b.x) (hay : a.y < b.y)
    (hcy : c.y = b.y) (hcx : c.x < b.x) : calculateAngle a b c = 90 := by
  simp only [calculateAngle]
  rw [show c.y - b.y = 0 by rw [hcy]; ring, show a.x - b.x = 0 by rw [hax]; ring]
  rw [atan2_zero_of_neg (by linarith), atan2_neg_zero (by linarith)]
  rw [show Real.pi - -(Real.pi / 2) = 3 / 2 * Real.pi by ring]
  rw [show 3 / 2 * Real.pi * 180 / Real.pi = 270 from by field_simp; ring]
  rw [show |(270 : ℝ)| = 270 from by norm_num]
  norm_num

theorem fix1_zero : fix1 0 = 0 := by
  norm_num [fix1]

theorem fix1_intMul (x : ℝ) (n : ℤ) (h : x * 10 = (n : ℝ)) : fix1 x = (n : ℝ) / 10 := by
  rw [fix1, h, round_intCast]

/-- Claim C4: calculateSlopeAngle (slopeDeviation) is symmetric under
swapping its two points and lies in [0, 90]; calculateHorizontalDeviation
(verticalDeviation) and calculateAngle (the joint-angle helper) take
values in [0, 180]. -/
theorem C4_geometry_primitive_ranges (p q a b c : Point) :
    calculateSlopeAngle p q = calculateSlopeAngle q p ∧
    0 ≤ calculateSlopeAngle p q ∧ calculateSlopeAngle p q ≤ 90 ∧
    0 ≤ calculateHorizontalDeviation p q ∧ calculateHorizontalDeviation p q ≤ 180 ∧
    0 ≤ calculateAngle a b c ∧ calculateAngle a b c ≤ 180 :=
  ⟨calculateSlopeAngle_swap p q, calculateSlopeAngle_nonneg p q, calculateSlopeAngle_le_90 p q,
   calculateHorizontalDeviation_nonneg p q, calculateHorizontalDeviation_le_180 p q,
   calculateAngle_nonneg a b c, calculateAngle_le_180 a b c⟩

/-- Claim C8: every view analyzer maps a missing or empty landmark set to a
result with empty issues, recommendations, measurements and deformities. -/
theorem C8_empty_landmark_sets (cal : Calibration) :
    analyzeFrontView cal none = ⟨[], [], none, []⟩ ∧
    analyzeSideView cal none = ⟨[], [], none, []⟩ ∧
    analyzeBackView cal none = ⟨[], [], none, []⟩ :=
  ⟨rfl, rfl, rfl⟩

/-- Claim C9: setCalibration replaces all four calibration values; a field
whose input is absent, zero or NaN falls back to its fixed default
(15 / 40 / 35 / 20), and no stored field is ever zero. -/
theorem C9_setCalibration_defaults (hw sw hpw nl : CalInput) :
    setCalibration hw sw hpw nl =
      ⟨orDefault hw 15, orDefault sw 40, orDefault hpw 35, orDefault nl 20⟩ ∧
    ((hw = .absent ∨ hw = .nan ∨ hw = .num 0) → (setCalibration hw sw hpw nl).headWidth = 15) ∧
    ((sw = .absent ∨ sw = .nan ∨ sw = .num 0) →
      (setCalibration hw sw hpw nl).shoulderWidth = 40) ∧
    ((hpw = .absent ∨ hpw = .nan ∨ hpw = .num 0) → (setCalibration hw sw hpw nl).hipWidth = 35) ∧
    ((nl = .absent ∨ nl = .nan ∨ nl = .num 0) → (setCalibration hw sw hpw nl).neckLength = 20) ∧
    (setCalibration hw sw hpw nl).headWidth ≠ 0 ∧
    (setCalibration hw sw hpw nl).shoulderWidth ≠ 0 ∧
    (setCalibration hw sw hpw nl).hipWidth ≠ 0 ∧
    (setCalibration hw sw hpw nl).neckLength ≠ 0 := by
  have hOr : ∀ (v : CalInput) (d : ℝ), d ≠ 0 →
      ((v = .absent ∨ v = .nan ∨ v = .num 0) → orDefault v d = d) ∧ orDefault v d ≠ 0 := by
    intro v d hd
    constructor
    · rintro (rfl | rfl | rfl) <;> simp [orDefault, hd]
    · cases v with
      | absent => simpa [orDefault] using hd
      | nan => simpa [orDefault] using hd
      | num r =>
        by_cases hr : r = 0 <;> simp [orDefault, hr, hd]
  refine ⟨rfl, ?_, ?_, ?_, ?_, ?_, ?_, ?_, ?_⟩
  · exact (hOr hw 15 (by norm_num)).1
  · exact (hOr sw 40 (by norm_num)).1
  · exact (hOr hpw 35 (by norm_num)).1
  · exact (hOr nl 20 (by norm_num)).1
  · exact (hOr hw 15 (by norm_num)).2
  · exact (hOr sw 40 (by norm_num)).2
  · exact (hOr hpw 35 (by norm_num)).2
  · exact (hOr nl 20 (by norm_num)).2

/-- Witness for C9: concrete falsy inputs (absent, zero, NaN) are stored
as the defaults and a valid 25 cm neck length is stored as given. -/
theorem C9_witness :
    (setCalibration .absent (.num 0) .nan (.num 25)).headWidth = 15 ∧
    (setCalibration .absent (.num 0) .nan (.num 25)).shoulderWidth = 40 ∧
    (setCalibration .absent (.num 0) .nan (.num 25)).hipWidth = 35 ∧
    (setCalibration .absent (.num 0) .nan (.num 25)).neckLength = 25 ∧
    (setCalibration .absent (.num 0) .nan (.num 25)).neckLength ≠ 0 := by
  have h := C9_setCalibration_defaults .absent (.num 0) .nan (.num 25)
  refine ⟨h.2.1 (Or.inl rfl), h.2.2.1 (Or.inr (Or.inr rfl)), h.2.2.2.1 (Or.inr (Or.inl rfl)),
    ?_, h.2.2.2.2.2.2.2.2⟩
  rw [h.1]
  norm_num [orDefault]


theorem mem_ite_singleton {α : Type} (x a : α) (c : Prop) [Decidable c] :
    x ∈ (if c then [a] else []) ↔ c ∧ x = a := by
  split_ifs with h <;> simp [h]

theorem mem_ite_pair {α : Type} (x a b : α) (c d : Prop) [Decidable c] [Decidable d] :
    x ∈ (if c then [a] else if d then [b] else []) ↔
      (c ∧ x = a) ∨ (¬c ∧ d ∧ x = b) := by
  split_ifs with h1 h2 <;> simp [*]

/-- Claim C3: since calculateAngle never exceeds 180, the lumbar branch
testing for an angle above 180 is unreachable, so every non-empty landmark
set gets lumbarCurvature 0, a reduced-lordosis issue, and never the normal
sagittal sentinel. -/
theorem C3_lumbar_lordosis_always_reduced (cal : Calibration) (lms : Landmarks) :
    (analyzeSideView cal (some lms)).measurements.map SideMeasurements.lumbarCurvature =
      some 0 ∧
    Issue.lumbarLordosisReduced ∈ (analyzeSideView cal (some lms)).issues ∧
    Issue.normalSagittal ∉ (analyzeSideView cal (some lms)).issues := by
  have h180 : ¬(calculateAngle
      ⟨(lms.leftShoulder.x + lms.rightShoulder.x) / 2,
       (lms.leftShoulder.y + lms.rightShoulder.y) / 2⟩
      ⟨(lms.leftHip.x + lms.rightHip.x) / 2, (lms.leftHip.y + lms.rightHip.y) / 2⟩
      ⟨(lms.leftKnee.x + lms.rightKnee.x) / 2, (lms.leftKnee.y + lms.rightKnee.y) / 2⟩ > 180) :=
    not_lt.mpr (calculateAngle_le_180 _ _ _)
  refine ⟨?_, ?_, ?_⟩
  · simp only [analyzeSideView, if_neg h180, Option.map_some']
    norm_num [fix1_zero]
  · simp only [analyzeSideView, if_neg h180]
    norm_num [mem_ite_singleton, mem_ite_pair, List.append_eq_nil, List.cons_ne_nil,
      List.mem_append, List.mem_cons]
  · simp only [analyzeSideView, if_neg h180]
    norm_num [mem_ite_singleton, mem_ite_pair, List.append_eq_nil, List.cons_ne_nil,
      List.mem_append, List.mem_cons]
    simp

/-- Witness for C3 at the canonical landmark set. -/
theorem C3_witness :
    (analyzeSideView defaultCalibration (some canonicalLandmarks)).measurements.map
      SideMeasurements.lumbarCurvature = some 0 ∧
    Issue.lumbarLordosisReduced ∈
      (analyzeSideView defaultCalibration (some canonicalLandmarks)).issues :=
  ⟨(C3_lumbar_lordosis_always_reduced defaultCalibration canonicalLandmarks).1,
   (C3_lumbar_lordosis_always_reduced defaultCalibration canonicalLandmarks).2.1⟩


theorem canonical_front_eval :
    (analyzeFrontView defaultCalibration (some canonicalLandmarks)).issues =
      [Issue.normalFrontal] ∧
    (analyzeFrontView defaultCalibration (some canonicalLandmarks)).deformities = [] := by
  have he : calculateSlopeAngle canonicalLandmarks.leftEar canonicalLandmarks.rightEar = 0 :=
    calculateSlopeAngle_of_level _ _ (by norm_num [canonicalLandmarks])
  have hn : calculateHorizontalDeviation
      ⟨(canonicalLandmarks.leftShoulder.x + canonicalLandmarks.rightShoulder.x) / 2,
       (canonicalLandmarks.leftShoulder.y + canonicalLandmarks.rightShoulder.y) / 2⟩
      canonicalLandmarks.nose = 0 :=
    calculateHorizontalDeviation_of_aligned _ _ (by norm_num [canonicalLandmarks])
  have hs : calculateSlopeAngle canonicalLandmarks.leftShoulder
      canonicalLandmarks.rightShoulder = 0 :=
    calculateSlopeAngle_of_level _ _ (by norm_num [canonicalLandmarks])
  have hel : calculateSlopeAngle canonicalLandmarks.leftElbow canonicalLandmarks.rightElbow = 0 :=
    calculateSlopeAngle_of_level _ _ (by norm_num [canonicalLandmarks])
  have hh : calculateSlopeAngle canonicalLandmarks.leftHip canonicalLandmarks.rightHip = 0 :=
    calculateSlopeAngle_of_level _ _ (by norm_num [canonicalLandmarks])
  have hlk : calculateAngle canonicalLandmarks.leftHip canonicalLandmarks.leftKnee
      canonicalLandmarks.leftAnkle = 180 :=
    calculateAngle_vertical _ _ _ (by norm_num [canonicalLandmarks])
      (by norm_num [canonicalLandmarks]) (by norm_num [canonicalLandmarks])
      (by norm_num [canonicalLandmarks])
  have hrk : calculateAngle canonicalLandmarks.rightHip canonicalLandmarks.rightKnee
      canonicalLandmarks.rightAnkle = 180 :=
    calculateAngle_vertical _ _ _ (by norm_num [canonicalLandmarks])
      (by norm_num [canonicalLandmarks]) (by norm_num [canonicalLandmarks])
      (by norm_num [canonicalLandmarks])
  have hk : calculateSlopeAngle canonicalLandmarks.leftKnee canonicalLandmarks.rightKnee = 0 :=
    calculateSlopeAngle_of_level _ _ (by norm_num [canonicalLandmarks])
  constructor <;>
    (simp only [analyzeFrontView, he, hn, hs, hel, hh, hlk, hrk, hk]; norm_num)

theorem canonical_side_eval :
    (analyzeSideView defaultCalibration (some canonicalLandmarks)).issues =
      [Issue.thoracicKyphosisReduced, Issue.lumbarLordosisReduced] ∧
    (analyzeSideView defaultCalibration (some canonicalLandmarks)).deformities =
      [Deformity.thoracicCurvature .reduced 0, Deformity.lumbarCurvature .reduced 0] := by
  have hfn : calculateHorizontalDeviation
      ⟨(canonicalLandmarks.leftShoulder.x + canonicalLandmarks.rightShoulder.x) / 2,
       (canonicalLandmarks.leftShoulder.y + canonicalLandmarks.rightShoulder.y) / 2⟩
      ⟨(canonicalLandmarks.leftEar.x + canonicalLandmarks.rightEar.x) / 2,
       (canonicalLandmarks.leftEar.y + canonicalLandmarks.rightEar.y) / 2⟩ = 0 :=
    calculateHorizontalDeviation_of_aligned _ _ (by norm_num [canonicalLandmarks])
  have hch : calculateHorizontalDeviation
      ⟨(canonicalLandmarks.leftShoulder.x + canonicalLandmarks.rightShoulder.x) / 2,
       (canonicalLandmarks.leftShoulder.y + canonicalLandmarks.rightShoulder.y) / 2⟩
      canonicalLandmarks.nose = 0 :=
    calculateHorizontalDeviation_of_aligned _ _ (by norm_num [canonicalLandmarks])
  have hth : calculateAngle
      ⟨(canonicalLandmarks.leftEar.x + canonicalLandmarks.rightEar.x) / 2,
       (canonicalLandmarks.leftEar.y + canonicalLandmarks.rightEar.y) / 2⟩
      ⟨(canonicalLandmarks.leftShoulder.x + canonicalLandmarks.rightShoulder.x) / 2,
       (canonicalLandmarks.leftShoulder.y + canonicalLandmarks.rightShoulder.y) / 2⟩
      ⟨(canonicalLandmarks.leftHip.x + canonicalLandmarks.rightHip.x) / 2,
       (canonicalLandmarks.leftHip.y + canonicalLandmarks.rightHip.y) / 2⟩ = 180 :=
    calculateAngle_vertical _ _ _ (by norm_num [canonicalLandmarks])
      (by norm_num [canonicalLandmarks]) (by norm_num [canonicalLandmarks])
      (by norm_num [canonicalLandmarks])
  have hlum : calculateAngle
      ⟨(canonicalLandmarks.leftShoulder.x + canonicalLandmarks.rightShoulder.x) / 2,
       (canonicalLandmarks.leftShoulder.y + canonicalLandmarks.rightShoulder.y) / 2⟩
      ⟨(canonicalLandmarks.leftHip.x + canonicalLandmarks.rightHip.x) / 2,
       (canonicalLandmarks.leftHip.y + canonicalLandmarks.rightHip.y) / 2⟩
      ⟨(canonicalLandmarks.leftKnee.x + canonicalLandmarks.rightKnee.x) / 2,
       (canonicalLandmarks.leftKnee.y + canonicalLandmarks.rightKnee.y) / 2⟩ = 180 :=
    calculateAngle_vertical _ _ _ (by norm_num [canonicalLandmarks])
      (by norm_num [canonicalLandmarks]) (by norm_num [canonicalLandmarks])
      (by norm_num [canonicalLandmarks])
  have hlk : calculateAngle canonicalLandmarks.leftHip canonicalLandmarks.leftKnee
      canonicalLandmarks.leftAnkle = 180 :=
    calculateAngle_vertical _ _ _ (by norm_num [canonicalLandmarks])
      (by norm_num [canonicalLandmarks]) (by norm_num [canonicalLandmarks])
      (by norm_num [canonicalLandmarks])
  have hrk : calculateAngle canonicalLandmarks.rightHip canonicalLandmarks.rightKnee
      canonicalLandmarks.rightAnkle = 180 :=
    calculateAngle_vertical _ _ _ (by norm_num [canonicalLandmarks])
      (by norm_num [canonicalLandmarks]) (by norm_num [canonicalLandmarks])
      (by norm_num [canonicalLandmarks])
  constructor <;>
    (simp only [analyzeSideView, hfn, hch, hth, hlum, hlk, hrk]
     norm_num [fix1_zero, List.cons_ne_nil])

theorem canonical_back_eval :
    (analyzeBackView defaultCalibration (some canonicalLandmarks)).issues =
      [Issue.normalPosterior] ∧
    (analyzeBackView defaultCalibration (some canonicalLandmarks)).deformities = [] := by
  have hel : calculateSlopeAngle canonicalLandmarks.leftElbow canonicalLandmarks.rightElbow = 0 :=
    calculateSlopeAngle_of_level _ _ (by norm_num [canonicalLandmarks])
  have hs : calculateSlopeAngle canonicalLandmarks.leftShoulder
      canonicalLandmarks.rightShoulder = 0 :=
    calculateSlopeAngle_of_level _ _ (by norm_num [canonicalLandmarks])
  have hh : calculateSlopeAngle canonicalLandmarks.leftHip canonicalLandmarks.rightHip = 0 :=
    calculateSlopeAngle_of_level _ _ (by norm_num [canonicalLandmarks])
  have hk : calculateSlopeAngle canonicalLandmarks.leftKnee canonicalLandmarks.rightKnee = 0 :=
    calculateSlopeAngle_of_level _ _ (by norm_num [canonicalLandmarks])
  have hgl : pixelDistance canonicalLandmarks.leftHip canonicalLandmarks.leftKnee =
      pixelDistance canonicalLandmarks.rightHip canonicalLandmarks.rightKnee := by
    norm_num [pixelDistance, canonicalLandmarks]
  have hla : calculateAngle canonicalLandmarks.leftKnee canonicalLandmarks.leftAnkle
      canonicalLandmarks.leftHeel = 180 :=
    calculateAngle_vertical _ _ _ (by norm_num [canonicalLandmarks])
      (by norm_num [canonicalLandmarks]) (by norm_num [canonicalLandmarks])
      (by norm_num [canonicalLandmarks])
  have hra : calculateAngle canonicalLandmarks.rightKnee canonicalLandmarks.rightAnkle
      canonicalLandmarks.rightHeel = 180 :=
    calculateAngle_vertical _ _ _ (by norm_num [canonicalLandmarks])
      (by norm_num [canonicalLandmarks]) (by norm_num [canonicalLandmarks])
      (by norm_num [canonicalLandmarks])
  constructor <;>
    (simp only [analyzeBackView, hel, hs, hh, hk, hgl, hla, hra]; norm_num [fix1_zero])

theorem bilatRecords_self (m : SideMeasurements) : bilatRecords m m = [] := by
  simp only [bilatRecords, bilatRecord]
  norm_num

/-- Claim C1 counterexample: at the canonical symmetric upright landmark
set the side view does not produce only the normal sentinel (the straight
ear-shoulder-hip and shoulder-hip-knee lines read as 0 degree kyphosis and
0 degree lordosis, both below their normal ranges), so the end-to-end
all-normal property fails. -/
theorem C1_counterexample :
    ¬((analyzeFrontView defaultCalibration (some canonicalLandmarks)).issues =
        [Issue.normalFrontal] ∧
      (analyzeSideView defaultCalibration (some canonicalLandmarks)).issues =
        [Issue.normalSagittal] ∧
      (analyzeBackView defaultCalibration (some canonicalLandmarks)).issues =
        [Issue.normalPosterior] ∧
      (generateDeformitySummary canonicalAnalysis).1.frontalPlane = [] ∧
      (generateDeformitySummary canonicalAnalysis).1.sagittalPlane = [] ∧
      (generateDeformitySummary canonicalAnalysis).1.bilateralComparison = []) := by
  intro h
  have h2 := h.2.1
  rw [canonical_side_eval.1] at h2
  exact absurd h2 (by simp)

/-- Claim C1 as amended: the canonical upright set yields only normal
sentinels in the front and back views, an empty frontal plane section and
an empty bilateral comparison, but each side view reports reduced thoracic
kyphosis and reduced lumbar lordosis (0 degrees each), so the sagittal
plane section holds exactly those four tagged deformities. -/
theorem C1_amended_canonical :
    (analyzeFrontView defaultCalibration (some canonicalLandmarks)).issues =
      [Issue.normalFrontal] ∧
    (analyzeBackView defaultCalibration (some canonicalLandmarks)).issues =
      [Issue.normalPosterior] ∧
    (analyzeSideView defaultCalibration (some canonicalLandmarks)).issues =
      [Issue.thoracicKyphosisReduced, Issue.lumbarLordosisReduced] ∧
    (generateDeformitySummary canonicalAnalysis).1.frontalPlane = [] ∧
    (generateDeformitySummary canonicalAnalysis).1.bilateralComparison = [] ∧
    (generateDeformitySummary canonicalAnalysis).1.sagittalPlane =
      [(Side.left, Deformity.thoracicCurvature .reduced 0),
       (Side.left, Deformity.lumbarCurvature .reduced 0),
       (Side.right, Deformity.thoracicCurvature .reduced 0),
       (Side.right, Deformity.lumbarCurvature .reduced 0)] := by
  refine ⟨canonical_front_eval.1, canonical_back_eval.1, canonical_side_eval.1, ?_, ?_, ?_⟩
  · simp [generateDeformitySummary, canonicalAnalysis, canonical_front_eval.2,
      canonical_back_eval.2]
  · obtain ⟨m, hm⟩ : ∃ m,
        (analyzeSideView defaultCalibration (some canonicalLandmarks)).measurements = some m :=
      ⟨_, rfl⟩
    simp [generateDeformitySummary, canonicalAnalysis, hm, bilatRecords_self]
  · simp [generateDeformitySummary, canonicalAnalysis, canonical_side_eval.2]


theorem knee_direction_never_varus (cal : Calibration) (lms : Landmarks) :
    (analyzeFrontView cal (some lms)).measurements.map FrontMeasurements.leftKneeDirection ≠
      some KneeDir.varus ∧
    (analyzeFrontView cal (some lms)).measurements.map FrontMeasurements.rightKneeDirection ≠
      some KneeDir.varus := by
  constructor
  · have hle := calculateAngle_le_180 lms.leftHip lms.leftKnee lms.leftAnkle
    simp only [analyzeFrontView, Option.map_some', ne_eq, Option.some.injEq]
    rcases lt_or_eq_of_le hle with hlt | heq
    · rw [if_pos hlt]
      simp
    · rw [if_neg (by rw [heq]; exact lt_irrefl _), if_neg (by rw [heq]; exact lt_irrefl _)]
      simp
  · have hle := calculateAngle_le_180 lms.rightHip lms.rightKnee lms.rightAnkle
    simp only [analyzeFrontView, Option.map_some', ne_eq, Option.some.injEq]
    rcases lt_or_eq_of_le hle with hlt | heq
    · rw [if_pos hlt]
      simp
    · rw [if_neg (by rw [heq]; exact lt_irrefl _), if_neg (by rw [heq]; exact lt_irrefl _)]
      simp

/-- Claim C2: the engine never classifies any knee as VARUS, because the
joint-angle helper never returns a value above 180; a left leg bent 90
degrees outward (a 270 degree reflex angle on the inward side, i.e. the
greater-than-180 configuration the spec calls VARUS) is measured as a 90
degree joint angle and classified VALGUS with a 90 degree deviation. -/
theorem C2_varus_unreachable :
    (∀ (cal : Calibration) (lms : Landmarks),
      (analyzeFrontView cal (some lms)).measurements.map FrontMeasurements.leftKneeDirection ≠
        some KneeDir.varus ∧
      (analyzeFrontView cal (some lms)).measurements.map FrontMeasurements.rightKneeDirection ≠
        some KneeDir.varus) ∧
    (analyzeFrontView defaultCalibration (some outwardKneeLandmarks)).measurements.map
      FrontMeasurements.leftKneeDirection = some KneeDir.valgus ∧
    (analyzeFrontView defaultCalibration (some outwardKneeLandmarks)).measurements.map
      FrontMeasurements.leftKneeAlignment = some 90 := by
  refine ⟨knee_direction_never_varus, ?_, ?_⟩ <;>
  · have hout : calculateAngle outwardKneeLandmarks.leftHip outwardKneeLandmarks.leftKnee
        outwardKneeLandmarks.leftAnkle = 90 :=
      calculateAngle_bentOutward _ _ _
        (by norm_num [outwardKneeLandmarks, canonicalLandmarks])
        (by norm_num [outwardKneeLandmarks, canonicalLandmarks])
        (by norm_num [outwardKneeLandmarks, canonicalLandmarks])
        (by norm_num [outwardKneeLandmarks, canonicalLandmarks])
    have hfix : fix1 (90 : ℝ) = 90 := by
      rw [fix1_intMul 90 900 (by norm_num)]
      norm_num
    simp only [analyzeFrontView, Option.map_some', hout]
    norm_num [hfix]

/-- Witness for C2: the no-varus property applied at the canonical set,
together with the concrete valgus classification of the outward-bent knee. -/
theorem C2_witness :
    (analyzeFrontView defaultCalibration (some canonicalLandmarks)).measurements.map
      FrontMeasurements.leftKneeDirection ≠ some KneeDir.varus ∧
    (analyzeFrontView defaultCalibration (some outwardKneeLandmarks)).measurements.map
      FrontMeasurements.leftKneeDirection = some KneeDir.valgus :=
  ⟨(C2_varus_unreachable.1 defaultCalibration canonicalLandmarks).1,
   C2_varus_unreachable.2.1⟩

theorem sqrt_nine : Real.sqrt 9 = 3 := by
  rw [show (9 : ℝ) = 3 ^ 2 by norm_num, Real.sqrt_sq (by norm_num : (0 : ℝ) ≤ 3)]

theorem sqrt_twentyfive : Real.sqrt 25 = 5 := by
  rw [show (25 : ℝ) = 5 ^ 2 by norm_num, Real.sqrt_sq (by norm_num : (0 : ℝ) ≤ 5)]

/-- Claim C5: with hips at (0,0) and (3,4) the front-view hip pixel
distance evaluates to 3 (it ignores the vertical separation because the
source subtracts rightHip.y from itself) while the Euclidean distance is
5, so the front hip ratio is 35/3 instead of the claimed 35/5; the head,
shoulder and back-view ratios do divide by the true Euclidean distance. -/
theorem C5_front_hip_ratio_bug :
    frontHipDistancePx slantedHipLandmarks = 3 ∧
    pixelDistance slantedHipLandmarks.leftHip slantedHipLandmarks.rightHip = 5 ∧
    hipRatioCmPerPx defaultCalibration slantedHipLandmarks = JVal.num (35 / 3) ∧
    backHipRatioCmPerPx defaultCalibration slantedHipLandmarks = JVal.num (35 / 5) ∧
    (∀ (cal : Calibration) (lms : Landmarks),
      headRatioCmPerPx cal lms = jdiv cal.headWidth (pixelDistance lms.leftEar lms.rightEar) ∧
      shoulderRatioCmPerPx cal lms =
        jdiv cal.shoulderWidth (pixelDistance lms.leftShoulder lms.rightShoulder) ∧
      backShoulderRatioCmPerPx cal lms =
        jdiv cal.shoulderWidth (pixelDistance lms.leftShoulder lms.rightShoulder) ∧
      backHipRatioCmPerPx cal lms = jdiv cal.hipWidth (pixelDistance lms.leftHip lms.rightHip)) ∧
    (35 : ℝ) / 5 = 7 := by
  have h3 : frontHipDistancePx slantedHipLandmarks = 3 := by
    rw [frontHipDistancePx, show ((slantedHipLandmarks.rightHip.x -
        slantedHipLandmarks.leftHip.x) ^ 2 + (slantedHipLandmarks.rightHip.y -
        slantedHipLandmarks.rightHip.y) ^ 2 : ℝ) = 9 by
      norm_num [slantedHipLandmarks, canonicalLandmarks]]
    exact sqrt_nine
  have h5 : pixelDistance slantedHipLandmarks.leftHip slantedHipLandmarks.rightHip = 5 := by
    rw [pixelDistance, show ((slantedHipLandmarks.rightHip.x -
        slantedHipLandmarks.leftHip.x) ^ 2 + (slantedHipLandmarks.rightHip.y -
        slantedHipLandmarks.leftHip.y) ^ 2 : ℝ) = 25 by
      norm_num [slantedHipLandmarks, canonicalLandmarks]]
    exact sqrt_twentyfive
  have h25 : backHipDistancePx slantedHipLandmarks = 5 := by
    rw [backHipDistancePx, show ((slantedHipLandmarks.rightHip.x -
        slantedHipLandmarks.leftHip.x) ^ 2 + (slantedHipLandmarks.rightHip.y -
        slantedHipLandmarks.leftHip.y) ^ 2 : ℝ) = 25 by
      norm_num [slantedHipLandmarks, canonicalLandmarks]]
    exact sqrt_twentyfive
  refine ⟨h3, h5, ?_, ?_, fun cal lms => ⟨rfl, rfl, rfl, rfl⟩, by norm_num⟩
  · rw [hipRatioCmPerPx, h3, jdiv, if_neg (by norm_num)]
    norm_num [defaultCalibration]
  · rw [backHipRatioCmPerPx, h25, jdiv, if_neg (by norm_num)]
    norm_num [defaultCalibration]

theorem coincidentEar_cm_is_nan :
    (analyzeFrontView defaultCalibration (some coincidentEarLandmarks)).measurements.map
      FrontMeasurements.earPinnaeLevelCm = some JVal.nan := by
  have hdist : frontEarDistancePx coincidentEarLandmarks = 0 := by
    rw [frontEarDistancePx, show ((coincidentEarLandmarks.rightEar.x -
        coincidentEarLandmarks.leftEar.x) ^ 2 + (coincidentEarLandmarks.rightEar.y -
        coincidentEarLandmarks.leftEar.y) ^ 2 : ℝ) = 0 by
      norm_num [coincidentEarLandmarks, canonicalLandmarks]]
    exact Real.sqrt_zero
  have hdiff : |coincidentEarLandmarks.leftEar.y - coincidentEarLandmarks.rightEar.y| = 0 := by
    norm_num [coincidentEarLandmarks, canonicalLandmarks]
  simp only [analyzeFrontView, Option.map_some']
  rw [show headRatioCmPerPx defaultCalibration coincidentEarLandmarks = JVal.inf by
    rw [headRatioCmPerPx, hdist, jdiv, if_pos rfl, if_neg (by norm_num [defaultCalibration]),
      if_pos (by norm_num [defaultCalibration])]]
  rw [hdiff]
  simp [jmul, jfix1]

/-- Claim C6 counterexample: for a landmark set whose ears coincide, the
centimeter companion earPinnaeLevelCm is surfaced as NaN (the head ratio
is Infinity and 0 times Infinity is NaN), so it is neither unavailable nor
a plain number as claimed. -/
theorem C6_counterexample :
    ¬((analyzeFrontView defaultCalibration (some coincidentEarLandmarks)).measurements.map
        FrontMeasurements.earPinnaeLevelCm ≠ some JVal.nan) := by
  intro h
  exact h coincidentEar_cm_is_nan

/-- Claim C6 as amended: with coincident ears the analyzer still produces a
result (no exception is modelled; the function is total), the angle
measurement earPinnaeLevel is still reported (0 for coincident ears), but
earPinnaeLevelCm is surfaced as NaN rather than being marked unavailable. -/
theorem C6_amended_nan_surfaced :
    (analyzeFrontView defaultCalibration (some coincidentEarLandmarks)).measurements.map
      FrontMeasurements.earPinnaeLevel = some 0 ∧
    (analyzeFrontView defaultCalibration (some coincidentEarLandmarks)).measurements.map
      FrontMeasurements.earPinnaeLevelCm = some JVal.nan := by
  refine ⟨?_, coincidentEar_cm_is_nan⟩
  have hslope : calculateSlopeAngle coincidentEarLandmarks.leftEar
      coincidentEarLandmarks.rightEar = 0 :=
    calculateSlopeAngle_of_level _ _ (by norm_num [coincidentEarLandmarks, canonicalLandmarks])
  simp only [analyzeFrontView, Option.map_some', hslope]
  norm_num [fix1_zero]


/-- Claim C7: the bilateral comparison is produced only when both side
views exist (and equals the five comparison blocks when both measurement
maps exist); for each metric a record is emitted exactly when the absolute
left-right difference exceeds the tolerance (3 forward neck, 5 thoracic
and lumbar curvature, 3 knee), carrying moreSevere = the side with the
larger value; and for forwardNeck values 10 and 16 a record is emitted
whose moreSevere is the side holding 16. -/
theorem C7_bilateral_rules :
    (∀ a : Analysis, a.sideLeft = none ∨ a.sideRight = none →
      (generateDeformitySummary a).1.bilateralComparison = []) ∧
    (∀ (a : Analysis) (l r : SideResult) (lm rm : SideMeasurements),
      a.sideLeft = some l → a.sideRight = some r →
      l.measurements = some lm → r.measurements = some rm →
      (generateDeformitySummary a).1.bilateralComparison = bilatRecords lm rm) ∧
    (∀ lm rm : SideMeasurements,
      (|lm.forwardNeck - rm.forwardNeck| > 3 →
        ({ kind := .forwardNeckAsym,
           moreSevere := if lm.forwardNeck > rm.forwardNeck then Side.left else Side.right,
           leftValue := lm.forwardNeck, rightValue := rm.forwardNeck,
           difference := fix1 |lm.forwardNeck - rm.forwardNeck| } : BilatRecord) ∈
          bilatRecords lm rm) ∧
      (¬(|lm.forwardNeck - rm.forwardNeck| > 3) →
        ∀ rec ∈ bilatRecords lm rm, rec.kind ≠ .forwardNeckAsym) ∧
      (|lm.thoracicCurvature - rm.thoracicCurvature| > 5 →
        ({ kind := .thoracicAsym,
           moreSevere := if lm.thoracicCurvature > rm.thoracicCurvature then Side.left
             else Side.right,
           leftValue := lm.thoracicCurvature, rightValue := rm.thoracicCurvature,
           difference := fix1 |lm.thoracicCurvature - rm.thoracicCurvature| } : BilatRecord) ∈
          bilatRecords lm rm) ∧
      (¬(|lm.thoracicCurvature - rm.thoracicCurvature| > 5) →
        ∀ rec ∈ bilatRecords lm rm, rec.kind ≠ .thoracicAsym) ∧
      (|lm.lumbarCurvature - rm.lumbarCurvature| > 5 →
        ({ kind := .lumbarAsym,
           moreSevere := if lm.lumbarCurvature > rm.lumbarCurvature then Side.left
             else Side.right,
           leftValue := lm.lumbarCurvature, rightValue := rm.lumbarCurvature,
           difference := fix1 |lm.lumbarCurvature - rm.lumbarCurvature| } : BilatRecord) ∈
          bilatRecords lm rm) ∧
      (¬(|lm.lumbarCurvature - rm.lumbarCurvature| > 5) →
        ∀ rec ∈ bilatRecords lm rm, rec.kind ≠ .lumbarAsym) ∧
      (|lm.leftKneePosition - rm.leftKneePosition| > 3 →
        ({ kind := .leftKneeVariation,
           moreSevere := if lm.leftKneePosition > rm.leftKneePosition then Side.left
             else Side.right,
           leftValue := lm.leftKneePosition, rightValue := rm.leftKneePosition,
           difference := fix1 |lm.leftKneePosition - rm.leftKneePosition| } : BilatRecord) ∈
          bilatRecords lm rm) ∧
      (¬(|lm.leftKneePosition - rm.leftKneePosition| > 3) →
        ∀ rec ∈ bilatRecords lm rm, rec.kind ≠ .leftKneeVariation) ∧
      (|lm.rightKneePosition - rm.rightKneePosition| > 3 →
        ({ kind := .rightKneeVariation,
           moreSevere := if lm.rightKneePosition > rm.rightKneePosition then Side.left
             else Side.right,
           leftValue := lm.rightKneePosition, rightValue := rm.rightKneePosition,
           difference := fix1 |lm.rightKneePosition - rm.rightKneePosition| } : BilatRecord) ∈
          bilatRecords lm rm) ∧
      (¬(|lm.rightKneePosition - rm.rightKneePosition| > 3) →
        ∀ rec ∈ bilatRecords lm rm, rec.kind ≠ .rightKneeVariation)) ∧
    (∃ rec ∈ bilatRecords sideMeasNeck10 sideMeasNeck16,
      rec.kind = .forwardNeckAsym ∧ rec.moreSevere = Side.right) := by
  refine ⟨?_, ?_, ?_, ?_⟩
  · intro a h
    rcases h with h | h
    · rcases hr : a.sideRight with _ | r <;> simp [generateDeformitySummary, h, hr]
    · rcases hl : a.sideLeft with _ | l <;> simp [generateDeformitySummary, h, hl]
  · intro a l r lm rm hl hr hlm hrm
    simp [generateDeformitySummary, hl, hr, hlm, hrm]
  · intro lm rm
    refine ⟨?_, ?_, ?_, ?_, ?_, ?_, ?_, ?_, ?_, ?_⟩ <;> intro hc
    · simp [bilatRecords, bilatRecord, if_pos hc, List.mem_append]
    · intro rec hmem
      revert hmem
      simp only [bilatRecords, bilatRecord, if_neg hc, hc, false_and, List.mem_append,
        mem_ite_singleton, List.not_mem_nil, false_or, or_false, List.nil_append,
        List.append_nil]
      rintro (((⟨-, rfl⟩ | ⟨-, rfl⟩) | ⟨-, rfl⟩) | ⟨-, rfl⟩) <;> simp
    · simp [bilatRecords, bilatRecord, if_pos hc, List.mem_append]
    · intro rec hmem
      revert hmem
      simp only [bilatRecords, bilatRecord, if_neg hc, hc, false_and, List.mem_append,
        mem_ite_singleton, List.not_mem_nil, false_or, or_false, List.nil_append,
        List.append_nil]
      rintro (((⟨-, rfl⟩ | ⟨-, rfl⟩) | ⟨-, rfl⟩) | ⟨-, rfl⟩) <;> simp
    · simp [bilatRecords, bilatRecord, if_pos hc, List.mem_append]
    · intro rec hmem
      revert hmem
      simp only [bilatRecords, bilatRecord, if_neg hc, hc, false_and, List.mem_append,
        mem_ite_singleton, List.not_mem_nil, false_or, or_false, List.nil_append,
        List.append_nil]
      rintro (((⟨-, rfl⟩ | ⟨-, rfl⟩) | ⟨-, rfl⟩) | ⟨-, rfl⟩) <;> simp
    · simp [bilatRecords, bilatRecord, if_pos hc, List.mem_append]
    · intro rec hmem
      revert hmem
      simp only [bilatRecords, bilatRecord, if_neg hc, hc, false_and, List.mem_append,
        mem_ite_singleton, List.not_mem_nil, false_or, or_false, List.nil_append,
        List.append_nil]
      rintro (((⟨-, rfl⟩ | ⟨-, rfl⟩) | ⟨-, rfl⟩) | ⟨-, rfl⟩) <;> simp
    · simp [bilatRecords, bilatRecord, if_pos hc, List.mem_append]
    · intro rec hmem
      revert hmem
      simp only [bilatRecords, bilatRecord, if_neg hc, hc, false_and, List.mem_append,
        mem_ite_singleton, List.not_mem_nil, false_or, or_false, List.nil_append,
        List.append_nil]
      rintro (((⟨-, rfl⟩ | ⟨-, rfl⟩) | ⟨-, rfl⟩) | ⟨-, rfl⟩) <;> simp
  · norm_num [bilatRecords, bilatRecord, sideMeasNeck10, sideMeasNeck16]

/-- Witness for C7: no bilateral records for an analysis with no side
views, and the concrete 10 versus 16 forward-neck record. -/
theorem C7_witness :
    (generateDeformitySummary ⟨none, none, none, none⟩).1.bilateralComparison = [] ∧
    (∃ rec ∈ bilatRecords sideMeasNeck10 sideMeasNeck16,
      rec.kind = .forwardNeckAsym ∧ rec.moreSevere = Side.right) :=
  ⟨C7_bilateral_rules.1 ⟨none, none, none, none⟩ (Or.inl rfl), C7_bilateral_rules.2.2.2⟩

/-- Claim C10: aggregation is not side-effect-free on its inputs.  For an
analysis whose front result holds one deformity and whose back result
holds another, the summary frontalPlane is indeed the front deformities
followed by the back deformities, but after the call the front result
deformities list has acquired the back deformity as well (the source
pushes the back deformities into the aliased front array). -/
theorem C10_aggregator_mutates_front :
    (generateDeformitySummary mutationProbeAnalysis).1.frontalPlane =
      [Deformity.pelvicObliquity .left .right 3 (.num 2),
       Deformity.scapularHeightAsym .left .right 3 (.num 2)] ∧
    (generateDeformitySummary mutationProbeAnalysis).2.front.map FrontResult.deformities =
      some [Deformity.pelvicObliquity .left .right 3 (.num 2),
            Deformity.scapularHeightAsym .left .right 3 (.num 2)] ∧
    mutationProbeAnalysis.front.map FrontResult.deformities =
      some [Deformity.pelvicObliquity .left .right 3 (.num 2)] := by
  refine ⟨?_, ?_, ?_⟩ <;>
    simp [generateDeformitySummary, mutationProbeAnalysis, oneDeformityFront, oneDeformityBack]

end Posture
